import Mathlib

/-
Verification development for the Rail-RNA pipeline stage-graph compiler and
configuration-validation engine (src/rna/flows/rail-rna_config.py).

The Python source is embedded shallowly:
  * dictionaries whose key sets are fixed become structures;
  * "key present in dict" flags become Bool fields, "value or absent/None"
    keys become Option fields;
  * the mutable error-accumulating object RailRnaErrors becomes an explicit
    state record threaded through the checks;
  * `raise RuntimeError`/`assert` become `Except` results;
  * filesystem / S3 / environment probes (which, is_exe, Url.is_local,
    Url.is_curlable, Url.is_s3, ansible.exists, os.path.exists,
    s3_ansible.is_dir, tempfile.mkdtemp, multiprocessing.cpu_count, the
    AWS config file) become an oracle record `World`.

The snapshot of the source contains several evident transcription slips
(identifier-level typos).  The embedding resolves each such name to its
evident referent and records the slip in a comment next to the definition;
control flow and data flow are translated exactly as written.
-/

namespace RailRna

/-! ## Path joining

`dooplicity.tools.path_join(unix, *args)` is imported from a part of the
repository that is not under src/. -/

/-- Whether a path is absolute (begins with a slash); rendered over the
character list so that it evaluates by kernel reduction. -/
def isAbs (s : String) : Bool :=
  ("/").data.isPrefixOf s.data

/-- Whether a path ends with a slash; rendered over the character list so
that it evaluates by kernel reduction. -/
def endSlash (s : String) : Bool :=
  ("/").data.isSuffixOf s.data

/-- Modelled from the spec: the Path/Directory Namespace Resolver
(dooplicity.tools.path_join, not under src/) "joins a stage-relative name to
an absolute location under an intermediate root, using either
local-filesystem join rules or distributed-storage URL join rules, selected
by target profile".  Both conventions are rendered as slash-joining in which
an absolute (slash-initial) later component resets the result, mirroring
os.path.join; the `unix` selector is retained in `pathJoin` for fidelity to
the call sites. -/
def join2 (a b : String) : String :=
  if isAbs b then b
  else if a = "" then b
  else if endSlash a then a ++ b
  else a ++ "/" ++ b

/-- Modelled from the spec: variadic join, folding `join2` over the
components (see `join2`). -/
def pathJoin (_unix : Bool) (parts : List String) : String :=
  parts.foldl join2 ""

/-! ## Protosteps and the step compiler (`step` and `steps`) -/

/-- A protostep dictionary, as documented in the docstring of `steps`
(rail-rna_config.py lines 122-142).  Key-presence flags become Bools,
optional keys become Options.  The source keys `no_input_prefix` and
`no_output_prefix` are renamed `noInputRoot` / `noOutputRoot` here. -/
structure Protostep where
  name : String
  run : String
  inputs : List String
  noInputRoot : Bool
  output : String
  noOutputRoot : Bool
  keys : Option Int
  part : Option String
  taskx : Option Int
  inputformat : Option String
  archives : Option String
  multiple_outputs : Bool
deriving DecidableEq

/-- The argument vector that `steps` passes to `step` for one protostep
(the keyword arguments evaluated at rail-rna_config.py lines 158-195). -/
structure StepParams where
  name : String
  inputs : List String
  output : String
  mapper : String
  reducer : String
  action_on_failure : String
  jar : String
  tasks : Int
  partitioner_options : Option String
  key_fields : Option Int
  archives : Option String
  multiple_outputs : Bool
  inputformat : Option String
deriving DecidableEq

/-- The step dictionary built by `step` (lines 70-116): name,
ActionOnFailure, HadoopJarStep.Jar and the flat HadoopJarStep.Args list. -/
structure Step where
  name : String
  actionOnFailure : String
  jar : String
  args : List String
deriving DecidableEq

/-- The non-protostep parameters of `steps` (line 118-119), plus
`sysExecutable`, the value of the interpreter path that the source
references as `sys.executable` (the module does not import sys; the
evident referent is the running interpreter's path, supplied here as an
oracle value). -/
structure Ctx where
  action_on_failure : String
  jar : String
  step_dir : String
  reducer_count : Int
  intermediate_dir : String
  unix : Bool
  sysExecutable : String

/-- Argument evaluation of the `step(...)` call inside the loop of `steps`
(lines 158-195), translated clause by clause. -/
def stepParamsOf (c : Ctx) (p : Protostep) : StepParams where
  name := p.name
  inputs :=
    if !p.noInputRoot then
      p.inputs.map (fun i => pathJoin c.unix [c.intermediate_dir, i])
    else p.inputs
  output :=
    if !p.noOutputRoot then pathJoin c.unix [c.intermediate_dir, p.output]
    else p.output
  mapper :=
    if p.keys.isNone then
      pathJoin c.unix
        [if c.unix then ("pypy") else c.sysExecutable, c.step_dir, p.run]
    else ("cat")
  reducer :=
    if p.keys.isSome then
      pathJoin c.unix
        [if c.unix then ("pypy") else c.sysExecutable, c.step_dir, p.run]
    else ("cat")
  action_on_failure := c.action_on_failure
  jar := c.jar
  tasks :=
    match p.taskx with
    | some t => c.reducer_count * t
    | none => 1
  partitioner_options := p.part
  key_fields := p.keys
  archives := p.archives
  multiple_outputs := p.multiple_outputs
  inputformat := p.inputformat

/-- Python str.strip() on space characters (whitespace trimmed from both
ends), rendered over the character list so that it evaluates by kernel
reduction. -/
def pyStrip (s : String) : String :=
  ⟨((s.data.dropWhile Char.isWhitespace).reverse.dropWhile
      Char.isWhitespace).reverse⟩

/-- The body of `step` (lines 48-116).  Three identifier slips in the
source are resolved to their evident referents: the two bare
`to_return.extend(...)` calls (lines 79, 109, 113) extend the
HadoopJarStep Args list like every neighbouring statement, the condition
name `partioner_options` (line 80) is the parameter
`partitioner_options`, and the condition name `input_format` (line 112) is
the parameter `inputformat`.  The literal option string `-intputformat`
(line 114) is data and is kept verbatim. -/
def buildStep (prm : StepParams) : Step where
  name := prm.name
  actionOnFailure := prm.action_on_failure
  jar := prm.jar
  args :=
    ([("-D"), ("mapred.reduce.tasks=") ++ toString prm.tasks]
      ++ (match prm.partitioner_options, prm.key_fields with
          | some po, some kf =>
            [("-D"), ("mapred.text.key.partitioner.options=-") ++ po,
             ("-D"), ("stream.num.map.output.key.fields=") ++ toString kf]
          | _, _ => [])
      ++ (if prm.multiple_outputs then
            [("-libjars"), ("/mnt/lib/multiplefiles.jar")] else [])
      ++ (match prm.archives with
          | some a => [("-archives"), a]
          | none => []))
    ++ [("-partitioner"),
        ("org.apache.hadoop.mapred.lib.KeyFieldBasedPartitioner")]
    ++ ((prm.inputs.map (fun i => [("-input"), pyStrip i])).flatten
      ++ [("-output"), prm.output, ("-mapper"), prm.mapper,
          ("-reducer"), prm.reducer]
      ++ (if prm.multiple_outputs then
            [("-outputformat"), ("edu.jhu.cs.MultipleOutputFormat")] else [])
      ++ (match prm.inputformat with
          | some f => [("-intputformat"), f]
          | none => []))

/-- The pairing invariant asserted at lines 156-157: `keys` and `part` are
both present or both absent. -/
def wfPairB (p : Protostep) : Bool :=
  (p.keys.isSome && p.part.isSome) || (!p.keys.isSome && !p.part.isSome)

/-- Failure of the step compiler: the failed `assert` at lines 156-157.
The assertion aborts `steps` itself; it has no access to, and does not
touch, any accumulated user-facing error list. -/
inductive StepsFailure where
  | assertionError
deriving DecidableEq

/-- The loop of `steps` (lines 154-197): per protostep, assert the pairing
invariant, then append the step built from the evaluated arguments. -/
def stepsE (c : Ctx) : List Protostep → Except StepsFailure (List Step)
  | [] => .ok []
  | p :: rest =>
    if wfPairB p then
      (stepsE c rest).map (fun l => buildStep (stepParamsOf c p) :: l)
    else .error .assertionError

/-! ## Cluster topology and reducer count derivation -/

/-- The fixed cores-per-instance-type table `base.instance_core_counts`
(rail-rna_config.py lines 631-641); lookup of a type outside the table is a
Python KeyError, rendered as `none`. -/
def instance_core_counts (t : String) : Option Int :=
  match t with
  | "m1.small" => some 1
  | "m1.large" => some 2
  | "m1.xlarge" => some 4
  | "c1.medium" => some 2
  | "c1.xlarge" => some 8
  | "m2.xlarge" => some 2
  | "m2.2xlarge" => some 4
  | "m2.4xlarge" => some 8
  | "cc1.4xlarge" => some 8
  | _ => none

/-- The instance-topology fields of the validated configuration object that
the reducer-count derivation reads (set in RailRnaCloud.__init__). -/
structure ClusterConfig where
  master_instance_count : Int
  core_instance_count : Int
  task_instance_count : Int
  master_instance_type : String
  core_instance_type : String
  task_instance_type : String
deriving DecidableEq

/-- The reducer-count derivation of RailRnaCloudPreprocessJson.__init__
(lines 1990-1995; repeated verbatim at lines 2136-2141 and 2293-2298):
`core_instance_count * instance_core_counts[core_instance_type]` when the
core count is positive, else
`master_instance_count * instance_core_counts[core_instance_type]`.
Task-node fields are never consulted. -/
def reducerCountOf (b : ClusterConfig) : Option Int :=
  match instance_core_counts b.core_instance_type with
  | none => none
  | some k =>
    some (if b.core_instance_count > 0 then b.core_instance_count * k
          else b.master_instance_count * k)

/-- Modelled from the spec (for comparison with `reducerCountOf`, which is
the source's derivation): "derived `reducer_count_base` = cores-per-type ×
count-of-task-capable nodes (task nodes if present, else core nodes)". -/
def specReducerCountBase (b : ClusterConfig) : Option Int :=
  if b.task_instance_count > 0 then
    (instance_core_counts b.task_instance_type).map
      (fun k => b.task_instance_count * k)
  else
    (instance_core_counts b.core_instance_type).map
      (fun k => b.core_instance_count * k)

/-! ## Protostep lists of the preprocess and align phases

The `run` command strings of the protosteps are opaque to the step
compiler (they are copied into the mapper/reducer command verbatim and
never inspected); they are abbreviated here to the script name.  All
fields the compiler does inspect (inputs, prefix flags, output, taskx,
part, keys, archives, multiple_outputs, inputformat) are translated
exactly from the source. -/

/-- A protostep with the fields every entry shares; the builders below
override the relevant fields. -/
def baseProto : Protostep where
  name := ""
  run := ""
  inputs := []
  noInputRoot := false
  output := ""
  noOutputRoot := false
  keys := none
  part := none
  taskx := none
  inputformat := none
  archives := none
  multiple_outputs := false

/-- RailRnaPreprocess.protosteps (lines 1163-1183): a single protostep
reading the manifest, writing verbatim (key `no_output_prefix` present) to
the supplied output directory, with NLineInputFormat and `taskx = 0`. -/
def preprocessProtosteps (manifest output_dir : String) : List Protostep :=
  [{ baseProto with
      name := "Preprocess input reads"
      run := "preprocess.py"
      inputs := [manifest]
      output := output_dir
      noOutputRoot := true
      inputformat := some ("org.apache.hadoop.mapred.lib.NLineInputFormat")
      taskx := some 0 }]

/-- RailRnaAlign.protosteps (lines 1558-1835): the nineteen align-phase
protosteps; all compiler-relevant fields are translated exactly from the
source (the first entry carries the key `no_input_prefix`; entry 10
carries `archives`; entries 1, 12 and 14 carry `multiple_outputs`). -/
def alignProtosteps (input_dir : String) (cloud : Bool) : List Protostep :=
  [{ baseProto with
      name := "Align reads to genome", run := "align.py"
      inputs := [input_dir], noInputRoot := true
      output := "align_reads", taskx := some 0, multiple_outputs := true },
   { baseProto with
      name := "Aggregate duplicate read sequences", run := "sum.py"
      inputs := [pathJoin cloud ["align_reads", "readletize"]]
      output := "combine_sequences", taskx := some 4
      part := some ("k1,1"), keys := some 1 },
   { baseProto with
      name := "Segment reads into readlets", run := "readletize.py"
      inputs := [pathJoin cloud ["align_reads", "readletize"]]
      output := "combine_sequences", taskx := some 4
      part := some ("k1,1"), keys := some 1 },
   { baseProto with
      name := "Aggregate duplicate readlet sequences", run := "sum.py"
      inputs := ["readletize"]
      output := "combine_subsequences", taskx := some 4
      part := some ("k1,1"), keys := some 1 },
   { baseProto with
      name := "Align unique readlets to genome", run := "align_readlets.py"
      inputs := [pathJoin cloud ["align_reads", "readletize"]]
      output := "combine_sequences", taskx := some 4
      part := some ("k1,1"), keys := some 1 },
   { baseProto with
      name := "Search for introns using readlet alignments"
      run := "intron_search.py"
      inputs := ["align_readlets"]
      output := "intron_search", taskx := some 4
      part := some ("k1,1"), keys := some 1 },
   { baseProto with
      name := "Enumerate possible intron cooccurrences on readlets"
      run := "intron_config.py"
      inputs := ["intron_search"]
      output := "intron_config", taskx := some 1
      part := some ("k1,2"), keys := some 4 },
   { baseProto with
      name := "Get transcriptome elements for readlet realignment"
      run := "intron_fasta.py"
      inputs := ["intron_config"]
      output := "intron_fasta", taskx := some 8
      part := some ("k1,4"), keys := some 4 },
   { baseProto with
      name := "Build index of transcriptome elements"
      run := "intron_index.py"
      inputs := ["intron_fasta"]
      output := "intron_index", taskx := none
      part := some ("k1,1"), keys := some 1 },
   { baseProto with
      name := "Align readlets to transcriptome elements"
      run := "align_readlets.py"
      inputs := ["combine_subsequences"]
      output := "realign_readlets", taskx := some 4
      archives :=
        some ("s3n://rail-experiments/geuvadis_again/index/intron.tar.gz#intron")
      part := some ("k1,1"), keys := some 1 },
   { baseProto with
      name := "Finalize intron cooccurrences on reads"
      run := "cointron_search.py"
      inputs := ["realign_readlets", "align_readlets"]
      output := "cointron_search", taskx := some 4
      part := some ("k1,1"), keys := some 1 },
   { baseProto with
      name := "Align reads to transcriptome elements"
      run := "realign_reads.py"
      inputs := ["cointron_fasta"]
      output := "realign_reads", taskx := some 4
      part := some ("k1,1"), keys := some 1, multiple_outputs := true },
   { baseProto with
      name := "Merge exon differentials at same genomic positions"
      run := "sum.py"
      inputs := [pathJoin cloud ["align_reads", "exon_diff"],
                 pathJoin cloud ["realign_reads", "exon_diff"]]
      output := "collapse", taskx := some 8
      part := some ("k1,3"), keys := some 3 },
   { baseProto with
      name := "Compile sample coverages from exon differentials"
      run := "coverage_pre.py"
      inputs := ["collapse"]
      output := "coverage_pre", taskx := some 8
      part := some ("k1,2"), keys := some 3, multiple_outputs := true },
   { baseProto with
      name := "Write bigbeds with exome coverage by sample"
      run := "coverage.py"
      inputs := [pathJoin cloud ["coverage_pre", "coverage"]]
      output := "coverage", taskx := some 1
      part := some ("k1,1"), keys := some 3 },
   { baseProto with
      name := "Write normalization factors for sample coverages"
      run := "coverage_post"
      inputs := ["coverage"]
      output := "coverage_post", taskx := none
      part := some ("k1,1"), keys := some 2 },
   { baseProto with
      name := "Aggregate intron and index results by sample"
      run := "bed_pre.py"
      inputs := [pathJoin cloud ["realign_reads", "bed"],
                 pathJoin cloud ["align_reads", "bed"]]
      output := "bed_pre", taskx := some 8
      part := some ("k1,6"), keys := some 6 },
   { baseProto with
      name := "Write beds with intron and indel results by sample"
      run := "bed.py"
      inputs := ["bed_pre"]
      output := "bed", taskx := some 1
      part := some ("k1,2"), keys := some 4 },
   { baseProto with
      name := "Write bams with alignments by sample"
      run := "bam.py"
      inputs := [pathJoin cloud ["align_reads", "end_to_end_sam"],
                 pathJoin cloud ["realign_reads", "splice_sam"]]
      output := "bam", taskx := some 1
      part := some ("k1,1"), keys := some 3 }]

/-- The Steps assembly of RailRnaLocalAllJson.__init__ (lines 2209-2221):
`middle_dir = os.path.join(intermediate_dir, 'preprocess', 'push')`, then
the preprocess protosteps compiled with output `middle_dir` concatenated
with the align protosteps compiled with input `middle_dir`, both with
empty action-on-failure and jar, reducer count `num_processes`, and
`unix=False`.  Note that the assembly never reads the external output
directory: `output_dir` appears in no input/output field of any protostep
(it occurs only inside `run` command strings of the source). -/
def railRnaLocalAllSteps (manifest intermediate_dir step_dir : String)
    (num_processes : Int) (sysExecutable : String) :
    Except StepsFailure (List Step) :=
  let middle_dir := pathJoin false [intermediate_dir, "preprocess", "push"]
  let c : Ctx :=
    { action_on_failure := "", jar := "", step_dir := step_dir,
      reducer_count := num_processes, intermediate_dir := intermediate_dir,
      unix := false, sysExecutable := sysExecutable }
  (stepsE c (preprocessProtosteps manifest middle_dir)).bind
    (fun pre => (stepsE c (alignProtosteps middle_dir false)).map
      (fun post => pre ++ post))

/-- The `Ctx` with which RailRnaLocalAllJson invokes `steps` twice
(empty action-on-failure and jar, `unix=False`, reducer count
`base.num_processes`). -/
def localAllCtx (inter sd : String) (np : Int) (sx : String) : Ctx where
  action_on_failure := ""
  jar := ""
  step_dir := sd
  reducer_count := np
  intermediate_dir := inter
  unix := false
  sysExecutable := sx

/-- The phase-transition directory `middle_dir` of
RailRnaLocalAllJson.__init__ (line 2212). -/
def localAllMiddle (inter : String) : String :=
  pathJoin false [inter, "preprocess", "push"]

/-- The concatenated protostep list RailRnaLocalAllJson compiles:
preprocess (writing to `middle_dir`) followed by align (reading from
`middle_dir`). -/
def localAllProtosteps (manifest inter : String) : List Protostep :=
  preprocessProtosteps manifest (localAllMiddle inter) ++
    alignProtosteps (localAllMiddle inter) false

/-- Value following the first occurrence of `flag` in a flat Hadoop
argument list (used to read the `-output` / `-input` of a built step). -/
def argAfter (flag : String) : List String → Option String
  | [] => none
  | a :: rest =>
    match rest with
    | [] => none
    | b :: _ => if a = flag then some b else argAfter flag rest

/-! ## The validation accumulator (RailRnaErrors) and its checks -/

/-- The state of a RailRnaErrors instance (lines 204-221), plus three
instrumentation fields that record events for analysis: `verifLog` logs
each execution of a capability-verification body (`check_s3` /
`check_program`), `tempDirs` logs each `tempfile.mkdtemp()` call and
`removedDirs` each `shutil.rmtree` call on such a directory.  The source
line `self.curl_exe = curl_exe` reads an unbound name; the evident
referent is a curl-executable argument defaulting to None (the class's
`add_args` declares `--curl-exe` with default None), so `curl_exe` starts
as `none` here. -/
structure RState where
  errors : List String
  checked_programs : List String
  aws_exe : Option String
  curl_exe : Option String
  profile : String
  region : String
  manifest : String
  manifest_dir : Option String
  output_dir : String
  intermediate_dir : String
  force : Bool
  verbose : Bool
  num_processes : Option Int
  verifLog : List String
  tempDirs : List String
  removedDirs : List String
deriving DecidableEq

/-- RailRnaErrors.__init__ (lines 204-221). -/
def initR (manifest output_dir intermediate_dir : String) (force : Bool)
    (aws_exe : Option String) (profile region : String) (verbose : Bool) :
    RState where
  errors := []
  checked_programs := []
  aws_exe := aws_exe
  curl_exe := none
  profile := profile
  region := region
  manifest := manifest
  manifest_dir := none
  output_dir := output_dir
  intermediate_dir := intermediate_dir
  force := force
  verbose := verbose
  num_processes := none
  verifLog := []
  tempDirs := []
  removedDirs := []

/-- The external probes the checks consult, collected as one oracle:
`which`/`is_exe` from dooplicity.tools, the Url classification and
existence/directory probes of dooplicity.ansibles (`Url.to_url` is taken
as the identity), presence of the two AWS key environment variables,
readability of `~/.aws/config`, `os.path.exists`, the token lists of the
manifest file's lines, the directory name `tempfile.mkdtemp()` returns,
and `multiprocessing.cpu_count()` (`none` = NotImplementedError). -/
structure World where
  which : String → Bool
  isExe : String → Bool
  envHasKeys : Bool
  configReadable : Bool
  isLocalUrl : String → Bool
  isCurlable : String → Bool
  isS3 : String → Bool
  urlExists : String → Bool
  s3IsDir : String → Bool
  pathExists : String → Bool
  manifestTokens : List (List String)
  mkdtempName : String
  cpuCount : Option Int

/-- Python str() of an optional string; `str(None) = "None"` (the source
formats the unset `--aws-exe` value into two of its messages). -/
def pyStr (o : Option String) : String :=
  match o with
  | none => "None"
  | some s => s

/-- Error message of lines 241-245. -/
def msgAwsNotFound : String :=
  "The AWS CLI executable was not found. Make sure that the executable " ++
  "is in PATH, or specify the location of the executable with \"--aws-exe\"."

/-- Error message of lines 247-250 (formatted with the entered `aws_exe`,
which is None on this branch). -/
def msgAwsEnteredNotFound (aws : Option String) : String :=
  "The AWS CLI executable (\"--aws-exe\") \"" ++ pyStr aws ++
  "\" was not found. Make sure that the file is present and is executable."

/-- Error message of lines 252-254. -/
def msgAwsNotExe (aws : Option String) : String :=
  "The AWS CLI executable (\"--aws-exe\") \"" ++ pyStr aws ++
  "\" is either not present or not executable."

/-- Error message of lines 296-311. -/
def msgNoConfig : String :=
  "No valid AWS CLI configuration found. Make sure the AWS CLI is " ++
  "installed properly and that one of the following is true:\n\na) The " ++
  "environment variables \"AWS_ACCESS_KEY_ID\" and " ++
  "\"AWS_SECRET_ACCESS_KEY\" are set to the desired AWS access key ID " ++
  "and secret access key, respectively, and the profile (\"--profile\") " ++
  "is set to \"default\" (its default value).\n\nb) The file " ++
  "\".aws/config\" exists in your home directory with a valid profile. " ++
  "To set this file up, run \"aws --config\" after installing the AWS CLI."

/-- The numbered rendering `'%d) %s' % (i, error)` of the accumulated
error list, in list order starting at 0 (lines 314-316, 322-324,
370-372). -/
def numberedErrors (errors : List String) : List String :=
  errors.enum.map (fun ie => toString ie.1 ++ ") " ++ ie.2)

/-- The message of the RuntimeError raised by `check_s3` (lines 312-327):
all accumulated errors, numbered and newline-joined, followed by the
S3 note, with the `reason` spliced in when one was given. -/
def s3Report (errors : List String) (reason : Option String) : String :=
  String.intercalate "\n" (numberedErrors errors) ++
    (match reason with
     | some r =>
       "\n\nNote that the AWS CLI is needed because " ++ r ++
       ". If all dependence on S3 in the pipeline is removed, the AWS " ++
       "CLI need not be installed."
     | none =>
       "\n\nIf all dependence on S3 in the pipeline is removed, the AWS " ++
       "CLI need not be installed.")

/-- The message of the RuntimeError raised by `check_program` (lines
369-376). -/
def curlReport (errors : List String) (r : String) : String :=
  String.intercalate "\n" (numberedErrors errors) ++
    "\n\nNote that Curl is needed because " ++ r ++
    ". If all dependence on web resources is removed from the pipeline, " ++
    "Curl need not be installed."

/-- Python set.add on the label list. -/
def insertLabel (l : String) (c : List String) : List String :=
  if l ∈ c then c else c ++ [l]

/-- The error messages `check_s3` appends on one call (lines 237-311),
as a function of the entry value of `self.aws_exe`, the profile and the
oracle.  The bare name `aws_exe` the source tests and formats is the
entry value of `self.aws_exe` (the constructor argument).  Branches:
with no entered executable, `which('aws')` failing appends the not-found
message — and, by the misplaced `else` of lines 246-250, succeeding
appends the entered-executable message formatted with None; with an
entered executable, `is_exe` failing appends the not-executable message.
Independently, when the credential search must read `~/.aws/config`
(profile not "default", or "default" with the two key environment
variables unset) and the file is unreadable (IOError), the no-valid-
configuration message is appended.  The parsing loop over a readable
config file sets only credential/region attributes and appends no
errors, so it contributes nothing here. -/
def s3NewErrors (aws_exe : Option String) (profile : String) (w : World) :
    List String :=
  (match aws_exe with
   | none =>
     if !(w.which ("aws")) then [msgAwsNotFound]
     else [msgAwsEnteredNotFound none]
   | some exe =>
     if !(w.isExe exe) then [msgAwsNotExe (some exe)] else [])
  ++ (if profile = "default" ∧ w.envHasKeys then []
      else if !w.configReadable then [msgNoConfig] else [])

/-- Result monad of a check block: a RuntimeError message, paired (as
instrumentation, so that the event logs survive an abort) with the state
at the raise. -/
abbrev CheckM := Except (String × RState) RState

/-- Sequencing of check blocks (a raise aborts the rest). -/
def andThen (m : CheckM) (f : RState → CheckM) : CheckM :=
  match m with
  | .ok st => f st
  | .error e => .error e

/-- RailRnaErrors.check_s3 (lines 223-328).  `self.aws_exe` is set to
'aws' when no executable was entered; the new errors of `s3NewErrors` are
appended; if any were appended (the length comparison of line 312) a
RuntimeError carrying the full numbered report plus the reason note is
raised, otherwise 'AWS CLI' is added to `checked_programs`.  Entry to the
body is logged in `verifLog`. -/
def checkS3 (w : World) (reason : Option String) (st : RState) : CheckM :=
  let st1 := { st with verifLog := st.verifLog ++ [("AWS CLI")] }
  let news := s3NewErrors st.aws_exe st.profile w
  let st2 := { st1 with
                aws_exe := some (st.aws_exe.getD ("aws")),
                errors := st1.errors ++ news }
  if news = [] then
    .ok { st2 with
           checked_programs := insertLabel ("AWS CLI") st2.checked_programs }
  else .error (s3Report st2.errors reason, st2)

/-- Error message of lines 350-357.  The source's format string indexes a
fourth argument (`{3}`) that the call does not supply; the evident
referent is the `parameter` argument (index 2). -/
def msgProgNotFound (exe pname param : String) : String :=
  "The executable \"" ++ exe ++ "\" for " ++ pname ++
  " was either not found in PATH or is not executable. Check that the " ++
  "program is installed properly and executable; then either add the " ++
  "executable to PATH or specify it directly with \"" ++ param ++ "\"."

/-- Error message of lines 361-366 (formatted, as in the source, with
`exe`, not with the entered executable). -/
def msgProgEnteredBad (exe pname param : String) : String :=
  "The executable \"" ++ exe ++ "\" entered for " ++ pname ++ " via \"" ++
  param ++ "\" was either not found or is not executable."

/-- RailRnaErrors.check_program (lines 330-378; the `def` omits `self`,
which the call sites `base.check_program(...)` evidently supply).  Returns
the resolved executable; on the branches that append an error the source
leaves `to_return` unbound (returning it would be an UnboundLocalError),
rendered as `none`.  A RuntimeError is raised only when an error was
appended AND a `reason` was given; in every non-raising exit the program
name is added to `checked_programs`.  Entry to the body is logged. -/
def checkProgram (w : World) (exe pname param : String)
    (entered : Option String) (reason : Option String) (st : RState) :
    Except (String × RState) (RState × Option String) :=
  let st1 := { st with verifLog := st.verifLog ++ [pname] }
  let news :=
    match entered with
    | none => if !(w.which exe) then [msgProgNotFound exe pname param] else []
    | some e =>
      if !(w.isExe e) then [msgProgEnteredBad exe pname param] else []
  let res : Option String :=
    match entered with
    | none => if !(w.which exe) then none else some exe
    | some e => if !(w.isExe e) then none else some e
  let st2 := { st1 with errors := st1.errors ++ news }
  match reason with
  | some r =>
    if news = [] then
      .ok ({ st2 with
              checked_programs := insertLabel pname st2.checked_programs },
           res)
    else .error (curlReport st2.errors r, st2)
  | none =>
    .ok ({ st2 with
            checked_programs := insertLabel pname st2.checked_programs },
         res)

/-- The `base.curl_exe = base.check_program('curl', 'Curl', '--curl_exe',
entered_exe=base.curl_exe, reason=...)` call pattern (lines 462-465,
508-515, 699-702, 738-745). -/
def runCurlCheck (w : World) (reason : Option String) (st : RState) :
    CheckM :=
  match checkProgram w ("curl") ("Curl") ("--curl_exe") st.curl_exe reason
      st with
  | .ok (st', res) => .ok { st' with curl_exe := res }
  | .error e => .error e

/-! ## The local-mode and cloud-mode check flows -/

/-- Append one accumulated validation error (`base.errors.append(...)`). -/
def appendErr (msg : String) (st : RState) : RState :=
  { st with errors := st.errors ++ [msg] }

/-- Error messages of the two flows, each a direct transcription with the
formatted value spliced in.  Line 452 and line 694 format the name
`base_output_dir`; the evident referent is `base.output_dir`. -/
def msgInterLocal (d : String) : String :=
  "Intermediate directory must be local when running Rail-RNA in local " ++
  "(\"--local\") mode, but " ++ d ++ " was entered."

/-- Error message of lines 431-436. -/
def msgOutCurl (o : String) : String :=
  "Output directory must be local or on S3 when running Rail-RNA in " ++
  "local (\"--local\") mode, but " ++ o ++ " was entered."

/-- Error message of lines 445-447. -/
def msgOutExists (o : String) : String :=
  "Output directory " ++ o ++ " exists, and \"--force\" was not invoked " ++
  "to permit overwriting it."

/-- Error message of lines 450-452 and 692-694. -/
def msgOutExistsS3 (o : String) : String :=
  "Output directory " ++ o ++ " exists on S3, and \"--force\" was not " ++
  "invoked to permit overwriting it."

/-- Error message of lines 467-469 and 704-706. -/
def msgManNotExist (m : String) : String :=
  "Manifest file (\"--manifest\") " ++ m ++ " does not exist. Check the " ++
  "URL and try again."

/-- Error message of lines 484-491 and 723-730 (the raw line is
re-rendered from its token list). -/
def msgBadLine (m : String) (line : List String) : String :=
  "The following line from the manifest file " ++ m ++
  " has an invalid number of tokens:\n" ++ String.intercalate "\t" line

/-- Error message of lines 517-523. -/
def msgFileNotExistLocal (f m : String) : String :=
  "The file " ++ f ++ " from the manifest file " ++ m ++
  " does not exist. Check the URL and try again."

/-- Error message of lines 747-753 (the source drops "Check" here). -/
def msgFileNotExistCloud (f m : String) : String :=
  "The file " ++ f ++ " from the manifest file " ++ m ++
  " does not exist the URL and try again."

/-- Error message of lines 525-528 and 755-758. -/
def msgNoValidLines (m : String) : String :=
  "Manifest file (\"--manifest\") " ++ m ++ " has no valid lines."

/-- Error message of lines 533-537. -/
def msgNumProc (n : Int) : String :=
  "Number of processes (\"--num-processes\") must be an integer >= 1, " ++
  "but " ++ toString n ++ " was entered."

/-- Error message of lines 669-670. -/
def msgLogUri (u : String) : String :=
  "Log URI (\"--log-uri\") must be on S3, but \"" ++ u ++ "\" was entered."

/-- Error message of lines 679-683. -/
def msgInterCloud (d : String) : String :=
  "Intermediate directory must be on HDFS or S3 when running Rail-RNA " ++
  "in cloud (\"--cloud\") mode, but " ++ d ++ " was entered."

/-- Error message of lines 686-690. -/
def msgOutCloud (o : String) : String :=
  "Output directory must be on S3 when running Rail-RNA in cloud " ++
  "(\"--cloud\") mode, but " ++ o ++ " was entered."

/-- The manifest parsing loop (lines 476-491 and 715-730): a 5-token line
contributes tokens 0 and 2 to `files_to_check`, a 3-token line token 0,
and any other shape appends a bad-line error; returns the collected file
list with the updated state. -/
def parseLine (m0 : String) (acc : List String × RState)
    (line : List String) : List String × RState :=
  match line with
  | [t0, _, t2, _, _] => (acc.1 ++ [t0, t2], acc.2)
  | [t0, _, _] => (acc.1 ++ [t0], acc.2)
  | _ => (acc.1, appendErr (msgBadLine m0 line) acc.2)

/-- The manifest parsing loop folded over the lines (see `parseLine`). -/
def parseManifest (m0 : String) (tokens : List (List String))
    (st : RState) : List String × RState :=
  tokens.foldl (parseLine m0) ([], st)

/-- The per-file loop of RailRnaLocal.__init__ (lines 495-523): for each
file, an S3 check guarded by 'AWS CLI' membership, else a Curl check
guarded by 'Curl' membership, then an existence check (line 516 passes
the Url object where its rendered URL is evidently meant). -/
def checkFilesLocal (w : World) (m0 : String) :
    List String → RState → CheckM
  | [], st => .ok st
  | f :: rest, st =>
    andThen
      (if w.isS3 f ∧ ("AWS CLI") ∉ st.checked_programs then
        checkS3 w
          (some ("at least one sample FASTA/FASTQ from the manifest " ++
                 "file is on S3")) st
      else if w.isCurlable f ∧ ("Curl") ∉ st.checked_programs then
        runCurlCheck w
          (some ("at least one sample FASTA/FASTQ from the manifest " ++
                 "file is on the web")) st
      else .ok st)
      (fun st1 =>
        checkFilesLocal w m0 rest
          (if !(w.urlExists f) then appendErr (msgFileNotExistLocal f m0) st1
           else st1))

/-- `base.num_processes` from `multiprocessing.cpu_count()` (lines
540-548): the count, 1 on NotImplementedError, decremented by one when it
is not 1. -/
def cpuSeg (w : World) (st : RState) : RState :=
  let c := match w.cpuCount with | some c => c | none => 1
  { st with num_processes := some (if c ≠ 1 then c - 1 else c) }

/-- The `num_processes` block of lines 530-548; an entered value of 0 is
falsy in Python and falls to the cpu-count branch, a non-positive nonzero
value appends the range error. -/
def numProcSeg (w : World) (np : Option Int) (st : RState) : RState :=
  match np with
  | some n =>
    if n ≠ 0 then
      (if n ≥ 1 then { st with num_processes := some n }
       else appendErr (msgNumProc n) st)
    else cpuSeg w st
  | none => cpuSeg w st

/-- Lines 423-429 of RailRnaLocal.__init__ (the source writes
`ab.Url(base,intermediate_dir)`; its evident referent is
`base.intermediate_dir`). -/
def localSegInter (w : World) (st : RState) : RState :=
  if !(w.isLocalUrl st.intermediate_dir) then
    appendErr (msgInterLocal st.intermediate_dir) st
  else st

/-- Lines 430-441: the output-directory scheme checks, with the S3 check
guarded by 'AWS CLI' membership in `checked_programs`. -/
def localSegOut (w : World) (st : RState) : CheckM :=
  if w.isCurlable st.output_dir then
    .ok (appendErr (msgOutCurl st.output_dir) st)
  else if w.isS3 st.output_dir ∧ ("AWS CLI") ∉ st.checked_programs then
    checkS3 w (some ("the output directory is on S3")) st
  else .ok st

/-- Lines 442-452: the force-overwrite checks. -/
def localSegForce (w : World) (st : RState) : RState :=
  if !st.force then
    (if w.isLocalUrl st.output_dir ∧ w.pathExists st.output_dir then
      appendErr (msgOutExists st.output_dir) st
    else if w.isS3 st.output_dir ∧ w.s3IsDir st.output_dir then
      appendErr (msgOutExistsS3 st.output_dir) st
    else st)
  else st

/-- Lines 453-465: the manifest-scheme capability checks, each guarded by
membership of its label in `checked_programs`. -/
def localSegManCap (w : World) (st : RState) : CheckM :=
  if w.isS3 st.manifest ∧ ("AWS CLI") ∉ st.checked_programs then
    checkS3 w (some ("the manifest file is on S3")) st
  else if w.isCurlable st.manifest ∧ ("Curl") ∉ st.checked_programs then
    runCurlCheck w (some ("the manifest file is on the web")) st
  else .ok st

/-- Lines 470-474: staging of a non-local manifest —
`base.manifest_dir = tempfile.mkdtemp()` and `base.manifest` repointed to
the staged copy inside it. -/
def localStage (w : World) (st : RState) : RState :=
  if !(w.isLocalUrl st.manifest) then
    { st with
       manifest_dir := some w.mkdtempName,
       tempDirs := st.tempDirs ++ [w.mkdtempName],
       manifest := pathJoin false [w.mkdtempName, "MANIFEST"] }
  else st

/-- Lines 475-528: parse the manifest lines, then either run the per-file
checks (preprocess flows only, `check_manifest`) or flag an empty
manifest. -/
def localParse (w : World) (check_manifest : Bool) (m0 : String)
    (st : RState) : CheckM :=
  if (parseManifest m0 w.manifestTokens st).1 ≠ [] then
    (if check_manifest then
      checkFilesLocal w m0 (parseManifest m0 w.manifestTokens st).1
        (parseManifest m0 w.manifestTokens st).2
    else .ok (parseManifest m0 w.manifestTokens st).2)
  else .ok (appendErr (msgNoValidLines m0) (parseManifest m0
    w.manifestTokens st).2)

/-- Lines 466-528: manifest existence, then staging and parsing; there is
no `shutil.rmtree` anywhere in the local flow. -/
def localSegManifest (w : World) (check_manifest : Bool) (st : RState) :
    CheckM :=
  if !(w.urlExists st.manifest) then
    .ok (appendErr (msgManNotExist st.manifest) st)
  else
    localParse w check_manifest st.manifest (localStage w st)

/-- RailRnaLocal.__init__ (lines 419-549): the segments above in source
order, then the `num_processes` block.  `keep_intermediates` is stored on
the RailRnaLocal object itself, not on `base`, and is omitted. -/
def railRnaLocalChecks (w : World) (check_manifest : Bool)
    (np : Option Int) (st : RState) : CheckM :=
  andThen (localSegOut w (localSegInter w st))
    (fun st =>
      andThen (localSegManCap w (localSegForce w st))
        (fun st =>
          andThen (localSegManifest w check_manifest st)
            (fun st => .ok (numProcSeg w np st))))

/-- The per-file loop of RailRnaCloud.__init__ (lines 734-753): only a
Curl check guarded by 'Curl' membership, then the existence check. -/
def checkFilesCloud (w : World) (m0 : String) :
    List String → RState → CheckM
  | [], st => .ok st
  | f :: rest, st =>
    andThen
      (if w.isCurlable f ∧ ("Curl") ∉ st.checked_programs then
        runCurlCheck w
          (some ("at least one sample FASTA/FASTQ from the manifest " ++
                 "file is on the web")) st
      else .ok st)
      (fun st1 =>
        checkFilesCloud w m0 rest
          (if !(w.urlExists f) then appendErr (msgFileNotExistCloud f m0) st1
           else st1))

/-- Lines 668-694 of RailRnaCloud.__init__: log-URI, intermediate-dir,
output-dir and force checks (line 673's tags/name and line 671's field
assignments touch fields no stated property reads and carry no checks). -/
def cloudSegParams (w : World) (log_uri : Option String) (st : RState) :
    RState :=
  let st := match log_uri with
    | some u => if !(w.isS3 u) then appendErr (msgLogUri u) st else st
    | none => st
  let st := if w.isLocalUrl st.intermediate_dir then
      appendErr (msgInterCloud st.intermediate_dir) st else st
  let st := if !(w.isS3 st.output_dir) then
      appendErr (msgOutCloud st.output_dir) st else st
  if !st.force ∧ w.s3IsDir st.output_dir then
    appendErr (msgOutExistsS3 st.output_dir) st
  else st

/-- Lines 695-702: the manifest Curl check, guarded by 'Curl' membership
in `checked_programs`. -/
def cloudSegManCap (w : World) (st : RState) : CheckM :=
  if w.isCurlable st.manifest ∧ ("Curl") ∉ st.checked_programs then
    runCurlCheck w (some ("the manifest file is on the web")) st
  else .ok st

/-- Lines 708-713: staging of a non-local manifest into a fresh
temporary directory (the source joins against `base.manifest_dir` and
downloads to `temp_manifest`; the evident referents are the fresh
`temp_manifest_dir` and the staged path `manifest`).  Cloud mode does not
repoint `base.manifest` here. -/
def cloudStage (w : World) (st : RState) : RState :=
  if !(w.isLocalUrl st.manifest) then
    { st with tempDirs := st.tempDirs ++ [w.mkdtempName] }
  else st

/-- The local variable `manifest` of lines 708-713: the staged path for a
non-local manifest, else the manifest URL itself. -/
def cloudStagedName (w : World) (m0 : String) : String :=
  if !(w.isLocalUrl m0) then pathJoin false [w.mkdtempName, "MANIFEST"]
  else m0

/-- Lines 714-758: parse the manifest lines, then either run the
per-file checks (`check_manifest`) or flag an empty manifest. -/
def cloudParse (w : World) (check_manifest : Bool) (m0 : String)
    (st : RState) : CheckM :=
  if (parseManifest m0 w.manifestTokens st).1 ≠ [] then
    (if check_manifest then
      checkFilesCloud w m0 (parseManifest m0 w.manifestTokens st).1
        (parseManifest m0 w.manifestTokens st).2
    else .ok (parseManifest m0 w.manifestTokens st).2)
  else .ok (appendErr (msgNoValidLines m0) (parseManifest m0
    w.manifestTokens st).2)

/-- Lines 759-763: a non-S3 manifest with an S3 output directory is
copied to S3 and `base.manifest` repointed to the copy. -/
def cloudPut (w : World) (m0 staged : String) (st : RState) : RState :=
  if !(w.isS3 m0) ∧ w.isS3 st.output_dir then
    { st with manifest := pathJoin true [st.output_dir, staged] }
  else st

/-- Lines 764-766: `shutil.rmtree` of the temporary staging directory of
a non-local manifest. -/
def cloudRm (w : World) (m0 : String) (st : RState) : RState :=
  if !(w.isLocalUrl m0) then
    { st with removedDirs := st.removedDirs ++ [w.mkdtempName] }
  else st

/-- Lines 703-766: manifest existence, then staging, parsing/per-file
checks, the S3 copy, and the removal of the staging directory. -/
def cloudSegManifest (w : World) (check_manifest : Bool) (st : RState) :
    CheckM :=
  if !(w.urlExists st.manifest) then
    .ok (appendErr (msgManNotExist st.manifest) st)
  else
    andThen (cloudParse w check_manifest st.manifest (cloudStage w st))
      (fun st1 =>
        .ok (cloudRm w st.manifest
          (cloudPut w st.manifest (cloudStagedName w st.manifest) st1)))

/-- RailRnaCloud.__init__ through the manifest block (lines 614-766):
the unconditional `check_s3` of line 628, then the segments above in
source order.  The remainder of the constructor (lines 768-891) appends
plain parameter-validation errors (action-on-failure, instance
types/counts/bid prices) and assigns topology fields; it performs no
capability check, raises nothing and touches no temporary directory, so
it is not needed by any property stated below and is omitted. -/
def railRnaCloudChecks (w : World) (check_manifest : Bool)
    (log_uri : Option String) (st : RState) : CheckM :=
  andThen
    (checkS3 w (some ("Rail-RNA is running in cloud (\"--cloud\") mode"))
      st)
    (fun st =>
      andThen (cloudSegManCap w (cloudSegParams w log_uri st))
        (fun st => cloudSegManifest w check_manifest st))

/-- Final state of a check flow, for either exit (raise included, thanks
to the instrumentation pairing). -/
def finalState (m : CheckM) : RState :=
  match m with
  | .ok st => st
  | .error e => e.2

/-! ## Analysis definitions for the capability and temp-dir properties -/

/-- Number of times the body of a capability verification labelled `l` ran
during the flow so far (occurrences of `l` in the instrumentation log). -/
def cntL (l : String) (st : RState) : Nat := st.verifLog.count l

/-- The running invariant of capability checking: the body of the
verification labelled `l` has run at most once, and only if `l` is now
registered in `checked_programs`. -/
def capOK (l : String) (st : RState) : Prop :=
  cntL l st ≤ if l ∈ st.checked_programs then 1 else 0

/-- Propagation of the capability invariant through a check block: an
ok-exit re-establishes the invariant, a raise may leave the count at one
(the verification that just failed) but never higher. -/
def MOK (l : String) : CheckM → Prop
  | .ok st => capOK l st
  | .error e => cntL l e.2 ≤ 1

/-- As `MOK`, for the value-returning `check_program`. -/
def MOK2 (l : String) :
    Except (String × RState) (RState × Option String) → Prop
  | .ok x => capOK l x.1
  | .error e => cntL l e.2 ≤ 1

/-- The temp-dir bookkeeping of a state: the directories created by
`tempfile.mkdtemp` and those removed by `shutil.rmtree`. -/
def tdrd (st : RState) : List String × List String :=
  (st.tempDirs, st.removedDirs)

/-! ## Concrete inputs used by witnesses and counterexamples -/

/-- A world whose manifest URL `hm` is curlable and remote while
everything else is local and every probe succeeds. -/
def wC9 : World where
  which := fun _ => true
  isExe := fun _ => true
  envHasKeys := true
  configReadable := true
  isLocalUrl := fun s => s != "hm"
  isCurlable := fun s => s == "hm"
  isS3 := fun _ => false
  urlExists := fun _ => true
  s3IsDir := fun _ => false
  pathExists := fun _ => false
  manifestTokens := [["u", "0", "s"]]
  mkdtempName := "td"
  cpuCount := some 2

/-- Local-mode state whose manifest `hm` is the remote manifest of
`wC9`. -/
def stC9 : RState :=
  initR ("hm") ("o") ("i") false none ("default") ("us-east-1") false

/-- A cloud-mode world: every URL is on S3 (hence remote), probes
succeed. -/
def wC9c : World where
  which := fun _ => true
  isExe := fun _ => true
  envHasKeys := true
  configReadable := true
  isLocalUrl := fun _ => false
  isCurlable := fun _ => false
  isS3 := fun _ => true
  urlExists := fun _ => true
  s3IsDir := fun _ => false
  pathExists := fun _ => false
  manifestTokens := [["u", "0", "s"]]
  mkdtempName := "td"
  cpuCount := some 2

/-- Cloud-mode state with an entered, working `--aws-exe`. -/
def stC9c : RState :=
  initR ("sm") ("so") ("si") false (some ("/a")) ("default") ("us-east-1")
    false

/-- A context used by several witnesses. -/
def ctxW : Ctx where
  action_on_failure := ""
  jar := "j"
  step_dir := "sd"
  reducer_count := 7
  intermediate_dir := "int"
  unix := false
  sysExecutable := "py"

/-- A map-only witness protostep. -/
def protoA : Protostep := { baseProto with name := "a", taskx := some 2 }

/-- A keyed-reducer witness protostep. -/
def protoB : Protostep :=
  { baseProto with name := "b", keys := some 1, part := some ("k1,1") }

/-- A protostep violating the pairing invariant (`part` without
`keys`). -/
def protoBad : Protostep :=
  { baseProto with name := "bad", part := some ("k1,1") }

/-- Configuration with task nodes present, for the C2 counterexample. -/
def cfgTaskNodes : ClusterConfig where
  master_instance_count := 1
  core_instance_count := 4
  task_instance_count := 2
  master_instance_type := "c1.xlarge"
  core_instance_type := "c1.xlarge"
  task_instance_type := "c1.xlarge"

/-- The spec's scenario configuration: 4 c1.xlarge core nodes, no task
nodes. -/
def cfgScenario : ClusterConfig where
  master_instance_count := 1
  core_instance_count := 4
  task_instance_count := 0
  master_instance_type := "c1.xlarge"
  core_instance_type := "c1.xlarge"
  task_instance_type := "c1.xlarge"

/-- A world where every probe succeeds. -/
def wAllGood : World where
  which := fun _ => true
  isExe := fun _ => true
  envHasKeys := true
  configReadable := true
  isLocalUrl := fun _ => true
  isCurlable := fun _ => false
  isS3 := fun _ => false
  urlExists := fun _ => true
  s3IsDir := fun _ => false
  pathExists := fun _ => false
  manifestTokens := [["u", "0", "s"]]
  mkdtempName := "td"
  cpuCount := some 2

/-- Like `wAllGood` but no executable passes `is_exe`. -/
def wBadAws : World := { wAllGood with isExe := fun _ => false }

/-- A state with an entered `--aws-exe`. -/
def stEntered : RState :=
  initR ("m") ("o") ("i") false (some ("/a")) ("default") ("us-east-1")
    false

/-- A state with no entered `--aws-exe`. -/
def stNoAws : RState :=
  initR ("m") ("o") ("i") false none ("default") ("us-east-1") false


/-! ## Helper lemmas -/

/-- On a list of protosteps all satisfying the pairing invariant, the loop
of `steps` succeeds and returns the per-protostep built steps in input
order. -/
theorem stepsE_eq_map (c : Ctx) (ps : List Protostep)
    (h : ∀ p ∈ ps, wfPairB p = true) :
    stepsE c ps = .ok (ps.map (fun p => buildStep (stepParamsOf c p))) := by
  induction ps with
  | nil => rfl
  | cons p rest ih =>
    have hp : wfPairB p = true := h p (by simp)
    have hrest : ∀ q ∈ rest, wfPairB q = true :=
      fun q hq => h q (by simp [hq])
    simp [stepsE, hp, ih hrest, Except.map]

theorem count_log_append (l x : String) (log : List String) :
    (log ++ [x]).count l = log.count l + if l = x then 1 else 0 := by
  by_cases h : l = x
  · subst h; simp [List.count_append]
  · simp [List.count_append, List.count_singleton', h, Ne.symm h]

theorem mem_insertLabel_self (x : String) (c : List String) :
    x ∈ insertLabel x c := by
  unfold insertLabel; split
  · assumption
  · simp

theorem mem_insertLabel_iff {l x : String} {c : List String} (h : l ≠ x) :
    l ∈ insertLabel x c ↔ l ∈ c := by
  unfold insertLabel; split
  · exact Iff.rfl
  · simp [List.mem_append, h]

theorem capOK_le_one {l : String} {st : RState} (h : capOK l st) :
    cntL l st ≤ 1 := by
  unfold capOK at h; split at h <;> omega

theorem MOK_final {l : String} {m : CheckM} (h : MOK l m) :
    cntL l (finalState m) ≤ 1 := by
  cases m with
  | ok st => exact capOK_le_one h
  | error e => exact h

theorem MOK_andThen {l : String} {m : CheckM} {f : RState → CheckM}
    (hm : MOK l m) (hf : ∀ st, capOK l st → MOK l (f st)) :
    MOK l (andThen m f) := by
  cases m with
  | ok st => exact hf st hm
  | error e => exact hm

theorem capOK_log_insert {l x : String} {st st' : RState}
    (hlog : st'.verifLog = st.verifLog ++ [x])
    (hch : st'.checked_programs = insertLabel x st.checked_programs)
    (hni : l = x → x ∉ st.checked_programs)
    (h : capOK l st) : capOK l st' := by
  unfold capOK cntL at h ⊢
  rw [hlog, hch, count_log_append]
  by_cases hl : l = x
  · subst hl
    have h0 : st.verifLog.count l = 0 := by
      rw [if_neg (hni rfl)] at h; omega
    rw [if_pos (mem_insertLabel_self l st.checked_programs)]
    simp [h0]
  · rw [if_neg hl]
    by_cases hm : l ∈ st.checked_programs
    · rw [if_pos hm] at h
      rw [if_pos ((mem_insertLabel_iff hl).mpr hm)]
      omega
    · rw [if_neg hm] at h
      rw [if_neg (fun hx => hm ((mem_insertLabel_iff hl).mp hx))]
      omega

theorem count_append_le_one {l x : String} {st : RState}
    (hni : l = x → x ∉ st.checked_programs) (h : capOK l st) :
    (st.verifLog ++ [x]).count l ≤ 1 := by
  rw [count_log_append]
  by_cases hl : l = x
  · subst hl
    have h0 : st.verifLog.count l = 0 := by
      unfold capOK cntL at h; rw [if_neg (hni rfl)] at h; omega
    simp [h0]
  · rw [if_neg hl]
    have h1 := capOK_le_one h
    unfold cntL at h1
    omega

theorem MOK_checkS3 {l : String} {w : World} {reason : Option String}
    {st : RState}
    (hni : l = "AWS CLI" → ("AWS CLI") ∉ st.checked_programs)
    (h : capOK l st) : MOK l (checkS3 w reason st) := by
  simp only [checkS3]
  split
  · refine capOK_log_insert ?_ ?_ hni h <;> rfl
  · exact count_append_le_one hni h

theorem MOK2_checkProgram {l : String} {w : World}
    {exe pname param : String} {entered reason : Option String}
    {st : RState} (hni : l = pname → pname ∉ st.checked_programs)
    (h : capOK l st) :
    MOK2 l (checkProgram w exe pname param entered reason st) := by
  rcases reason with _ | r <;> rcases entered with _ | e <;>
    simp only [checkProgram] <;> (repeat' split) <;>
    first
      | (refine capOK_log_insert ?_ ?_ hni h <;> rfl)
      | exact count_append_le_one hni h

theorem MOK_runCurlCheck {l : String} {w : World}
    {reason : Option String} {st : RState}
    (hni : l = "Curl" → ("Curl") ∉ st.checked_programs)
    (h : capOK l st) : MOK l (runCurlCheck w reason st) := by
  have h2 : MOK2 l (checkProgram w ("curl") ("Curl") ("--curl_exe")
      st.curl_exe reason st) := MOK2_checkProgram hni h
  unfold runCurlCheck
  cases hcp : checkProgram w ("curl") ("Curl") ("--curl_exe")
      st.curl_exe reason st with
  | ok x =>
    rw [hcp] at h2
    exact h2
  | error e =>
    rw [hcp] at h2
    exact h2

theorem parseLine_state (m0 : String) (acc : List String × RState)
    (line : List String) :
    ∃ ex, (parseLine m0 acc line).2 =
      { acc.2 with errors := acc.2.errors ++ ex } := by
  unfold parseLine
  split
  · exact ⟨[], by simp⟩
  · exact ⟨[], by simp⟩
  · exact ⟨_, rfl⟩

theorem foldl_parseLine_state (m0 : String) :
    ∀ (ts : List (List String)) (acc : List String × RState),
      ∃ ex, (ts.foldl (parseLine m0) acc).2 =
        { acc.2 with errors := acc.2.errors ++ ex }
  | [], acc => ⟨[], by simp⟩
  | t :: ts, acc => by
    obtain ⟨ex1, h1⟩ := parseLine_state m0 acc t
    obtain ⟨ex2, h2⟩ := foldl_parseLine_state m0 ts (parseLine m0 acc t)
    refine ⟨ex1 ++ ex2, ?_⟩
    rw [List.foldl_cons, h2, h1]
    simp [List.append_assoc]

theorem parseManifest_state (m0 : String) (ts : List (List String))
    (st : RState) :
    ∃ ex, (parseManifest m0 ts st).2 =
      { st with errors := st.errors ++ ex } :=
  foldl_parseLine_state m0 ts ([], st)

theorem capOK_localSegInter {l : String} {w : World} {st : RState}
    (h : capOK l st) : capOK l (localSegInter w st) := by
  unfold localSegInter; split <;> exact h

theorem capOK_localSegForce {l : String} {w : World} {st : RState}
    (h : capOK l st) : capOK l (localSegForce w st) := by
  unfold localSegForce
  (repeat' split) <;> exact h

theorem capOK_numProcSeg {l : String} {w : World} {np : Option Int}
    {st : RState} (h : capOK l st) : capOK l (numProcSeg w np st) := by
  rcases np with _ | n <;> simp only [numProcSeg, cpuSeg] <;>
    (repeat' split) <;> exact h

theorem capOK_localStage {l : String} {w : World} {st : RState}
    (h : capOK l st) : capOK l (localStage w st) := by
  unfold localStage; split <;> exact h

theorem capOK_cloudStage {l : String} {w : World} {st : RState}
    (h : capOK l st) : capOK l (cloudStage w st) := by
  unfold cloudStage; split <;> exact h

theorem capOK_cloudPut {l : String} {w : World} {m0 staged : String}
    {st : RState} (h : capOK l st) :
    capOK l (cloudPut w m0 staged st) := by
  unfold cloudPut; split <;> exact h

theorem capOK_cloudRm {l : String} {w : World} {m0 : String}
    {st : RState} (h : capOK l st) : capOK l (cloudRm w m0 st) := by
  unfold cloudRm; split <;> exact h

theorem capOK_cloudSegParams {l : String} {w : World}
    {lu : Option String} {st : RState} (h : capOK l st) :
    capOK l (cloudSegParams w lu st) := by
  rcases lu with _ | u <;> simp only [cloudSegParams] <;>
    (repeat' split) <;> exact h

theorem MOK_localSegOut {l : String} {w : World} {st : RState}
    (h : capOK l st) : MOK l (localSegOut w st) := by
  unfold localSegOut
  split
  · exact h
  · split
    · rename_i hc
      exact MOK_checkS3 (fun _ => hc.2) h
    · exact h

theorem MOK_localSegManCap {l : String} {w : World} {st : RState}
    (h : capOK l st) : MOK l (localSegManCap w st) := by
  unfold localSegManCap
  split
  · rename_i hc
    exact MOK_checkS3 (fun _ => hc.2) h
  · split
    · rename_i hc
      exact MOK_runCurlCheck (fun _ => hc.2) h
    · exact h

theorem MOK_checkFilesLocal {l : String} (w : World) (m0 : String)
    (files : List String) :
    ∀ st : RState, capOK l st → MOK l (checkFilesLocal w m0 files st) := by
  induction files with
  | nil => intro st h; exact h
  | cons f fs ih =>
    intro st h
    unfold checkFilesLocal
    apply MOK_andThen
    · split
      · rename_i hc
        exact MOK_checkS3 (fun _ => hc.2) h
      · split
        · rename_i hc
          exact MOK_runCurlCheck (fun _ => hc.2) h
        · exact h
    · intro st1 h1
      apply ih
      split <;> exact h1

theorem MOK_checkFilesCloud {l : String} (w : World) (m0 : String)
    (files : List String) :
    ∀ st : RState, capOK l st → MOK l (checkFilesCloud w m0 files st) := by
  induction files with
  | nil => intro st h; exact h
  | cons f fs ih =>
    intro st h
    unfold checkFilesCloud
    apply MOK_andThen
    · split
      · rename_i hc
        exact MOK_runCurlCheck (fun _ => hc.2) h
      · exact h
    · intro st1 h1
      apply ih
      split <;> exact h1

theorem MOK_localParse {l : String} {w : World} {cm : Bool} {m0 : String}
    {st : RState} (h : capOK l st) : MOK l (localParse w cm m0 st) := by
  obtain ⟨ex, hex⟩ := parseManifest_state m0 w.manifestTokens st
  have hp : capOK l (parseManifest m0 w.manifestTokens st).2 := by
    rw [hex]; exact h
  unfold localParse
  split
  · split
    · exact MOK_checkFilesLocal w m0 _ _ hp
    · exact hp
  · exact hp

theorem MOK_cloudParse {l : String} {w : World} {cm : Bool} {m0 : String}
    {st : RState} (h : capOK l st) : MOK l (cloudParse w cm m0 st) := by
  obtain ⟨ex, hex⟩ := parseManifest_state m0 w.manifestTokens st
  have hp : capOK l (parseManifest m0 w.manifestTokens st).2 := by
    rw [hex]; exact h
  unfold cloudParse
  split
  · split
    · exact MOK_checkFilesCloud w m0 _ _ hp
    · exact hp
  · exact hp

theorem MOK_localSegManifest {l : String} {w : World} {cm : Bool}
    {st : RState} (h : capOK l st) :
    MOK l (localSegManifest w cm st) := by
  unfold localSegManifest
  split
  · exact h
  · exact MOK_localParse (capOK_localStage h)

theorem MOK_cloudSegManCap {l : String} {w : World} {st : RState}
    (h : capOK l st) : MOK l (cloudSegManCap w st) := by
  unfold cloudSegManCap
  split
  · rename_i hc
    exact MOK_runCurlCheck (fun _ => hc.2) h
  · exact h

theorem MOK_cloudSegManifest {l : String} {w : World} {cm : Bool}
    {st : RState} (h : capOK l st) :
    MOK l (cloudSegManifest w cm st) := by
  unfold cloudSegManifest
  split
  · exact h
  · apply MOK_andThen (MOK_cloudParse (capOK_cloudStage h))
    intro st1 h1
    exact capOK_cloudRm (capOK_cloudPut h1)

theorem MOK_railRnaLocalChecks {l : String} (w : World) (cm : Bool)
    (np : Option Int) (st : RState) (h : capOK l st) :
    MOK l (railRnaLocalChecks w cm np st) := by
  unfold railRnaLocalChecks
  apply MOK_andThen (MOK_localSegOut (capOK_localSegInter h))
  intro st1 h1
  apply MOK_andThen (MOK_localSegManCap (capOK_localSegForce h1))
  intro st2 h2
  apply MOK_andThen (MOK_localSegManifest h2)
  intro st3 h3
  exact capOK_numProcSeg h3

theorem MOK_railRnaCloudChecks {l : String} (w : World) (cm : Bool)
    (lu : Option String) (st : RState)
    (hA : ("AWS CLI") ∉ st.checked_programs) (h : capOK l st) :
    MOK l (railRnaCloudChecks w cm lu st) := by
  unfold railRnaCloudChecks
  apply MOK_andThen (MOK_checkS3 (fun _ => hA) h)
  intro st1 h1
  apply MOK_andThen (MOK_cloudSegManCap (capOK_cloudSegParams h1))
  intro st2 h2
  exact MOK_cloudSegManifest h2

/-! ## Claim theorems -/

/-- Claim C1: for every protostep handed to the step compiler `steps`, the
reducer task count passed into the concrete step (the `tasks` keyword
argument evaluated at lines 181-183) is exactly 1 when the protostep's
`taskx` field is None, exactly 0 when `taskx` is 0, and
`reducer_count * taskx` when `taskx > 0`, regardless of `reducer_count`. -/
theorem C1_reducer_task_count (c : Ctx) (p : Protostep) :
    (p.taskx = none → (stepParamsOf c p).tasks = 1) ∧
    (p.taskx = some 0 → (stepParamsOf c p).tasks = 0) ∧
    (∀ t : Int, 0 < t → p.taskx = some t →
      (stepParamsOf c p).tasks = c.reducer_count * t) := by
  refine ⟨fun h => ?_, fun h => ?_, fun t ht h => ?_⟩ <;>
    simp [stepParamsOf, h]


theorem C1_reducer_task_count_witness :
    (stepParamsOf ctxW { baseProto with taskx := none }).tasks = 1 ∧
    (stepParamsOf ctxW { baseProto with taskx := some 0 }).tasks = 0 ∧
    (stepParamsOf ctxW { baseProto with taskx := some 3 }).tasks = 21 := by
  refine ⟨(C1_reducer_task_count ctxW _).1 rfl,
          (C1_reducer_task_count ctxW _).2.1 rfl, ?_⟩
  have h := (C1_reducer_task_count ctxW
    { baseProto with taskx := some 3 }).2.2 3 (by norm_num) rfl
  rw [h]; norm_num [ctxW]

/-- Claim C3: for every list of protosteps each satisfying the keys/part
pairing invariant, `steps` returns exactly one concrete step per input
protostep, in input order (the returned list is the input list mapped
through argument evaluation plus `step`). -/
theorem C3_one_step_per_protostep (c : Ctx) (ps : List Protostep)
    (h : ∀ p ∈ ps, wfPairB p = true) :
    stepsE c ps = .ok (ps.map (fun p => buildStep (stepParamsOf c p))) ∧
    (ps.map (fun p => buildStep (stepParamsOf c p))).length = ps.length :=
  ⟨stepsE_eq_map c ps h, by simp⟩



theorem C3_one_step_per_protostep_witness :
    stepsE ctxW [protoA, protoB] =
      .ok ([protoA, protoB].map
        (fun p => buildStep (stepParamsOf ctxW p))) ∧
    ([protoA, protoB].map
        (fun p => buildStep (stepParamsOf ctxW p))).length = 2 :=
  C3_one_step_per_protostep ctxW _ (by decide)

/-- Claim C7: a protostep declaring exactly one of `part` and `keys`
makes `steps` abort with the failed assertion of lines 156-157 before any
step is built for it (the result carries no step list at all).  The
abort is an AssertionError out of `steps` itself: as the type of `stepsE`
shows, the step compiler neither receives nor touches the user-facing
accumulated error list. -/
theorem C7_pairing_violation_aborts (c : Ctx) (ps : List Protostep)
    (h : ∃ p ∈ ps, wfPairB p = false) :
    stepsE c ps = .error StepsFailure.assertionError := by
  induction ps with
  | nil => simp at h
  | cons p rest ih =>
    by_cases hp : wfPairB p = true
    · obtain ⟨q, hq, hqf⟩ := h
      rcases List.mem_cons.mp hq with rfl | hq'
      · rw [hp] at hqf; cases hqf
      · simp [stepsE, hp, ih ⟨q, hq', hqf⟩, Except.map]
    · simp [stepsE, hp]

theorem C7_pairing_violation_aborts_witness :
    stepsE ctxW [protoA, protoBad] =
      .error StepsFailure.assertionError :=
  C7_pairing_violation_aborts ctxW _ ⟨protoBad, by simp, by decide⟩

/-- Claim C10: every step built by `step` carries the pair
`-partitioner org.apache.hadoop.mapred.lib.KeyFieldBasedPartitioner` in
its Hadoop argument list (lines 95-98 extend the list unconditionally),
also for map-only steps with no partitioner specification. -/
theorem C10_partitioner_unconditional (prm : StepParams) :
    ∃ l r, (buildStep prm).args =
      l ++ [("-partitioner"),
            ("org.apache.hadoop.mapred.lib.KeyFieldBasedPartitioner")]
        ++ r :=
  ⟨_, _, rfl⟩



/-- Claim C2 counterexample: with 2 task nodes and 4 core nodes, all of
type c1.xlarge (8 cores), the code derives 4 × 8 = 32 from the core
nodes, while the claimed task-nodes-if-positive rule gives 2 × 8 = 16;
the code never consults the task-node fields. -/
theorem C2_counterexample :
    reducerCountOf cfgTaskNodes = some 32 ∧
    specReducerCountBase cfgTaskNodes = some 16 ∧
    reducerCountOf cfgTaskNodes ≠ specReducerCountBase cfgTaskNodes := by
  refine ⟨rfl, rfl, by decide⟩

/-- Claim C2 (amended): the derived reducer count equals the
cores-per-type table entry for the core instance type multiplied by the
core-node count when that count is positive, else by the master-node
count; task nodes never enter.  In particular the spec scenario
(c1.xlarge × 4 core nodes, no task nodes) gives 32. -/
theorem C2_amended_derivation (b : ClusterConfig) (k : Int)
    (h : instance_core_counts b.core_instance_type = some k) :
    reducerCountOf b =
      some ((if b.core_instance_count > 0 then b.core_instance_count
             else b.master_instance_count) * k) ∧
    reducerCountOf cfgScenario = some 32 := by
  constructor
  · by_cases hc : b.core_instance_count > 0 <;> simp [reducerCountOf, h, hc]
  · rfl

theorem C2_amended_derivation_witness :
    reducerCountOf cfgScenario =
      some ((if cfgScenario.core_instance_count > 0 then
               cfgScenario.core_instance_count
             else cfgScenario.master_instance_count) * 8) :=
  (C2_amended_derivation cfgScenario 8 rfl).1

/-- Claim C4: `check_s3` raises exactly when the call appended at least
one new error (the length comparison of line 312), and the raised
message is the full accumulated error list — the pre-existing errors
followed by the new ones — numbered in discovery order and joined, with
the `reason` note appended when a reason was given (`s3Report`). -/
theorem C4_check_s3_raise_iff (st : RState) (w : World)
    (reason : Option String) :
    (s3NewErrors st.aws_exe st.profile w = [] →
      ∃ st', checkS3 w reason st = .ok st') ∧
    (s3NewErrors st.aws_exe st.profile w ≠ [] →
      ∃ est, checkS3 w reason st =
        .error (s3Report (st.errors ++ s3NewErrors st.aws_exe st.profile w)
                  reason, est)) := by
  constructor
  · intro h
    simp only [checkS3, if_pos h]
    exact ⟨_, rfl⟩
  · intro h
    simp only [checkS3, if_neg h]
    exact ⟨_, rfl⟩




theorem C4_check_s3_raise_iff_witness :
    (∃ st', checkS3 wAllGood none stEntered = .ok st') ∧
    (∃ est, checkS3 wBadAws (some ("r")) stEntered =
      .error (s3Report (stEntered.errors ++
          s3NewErrors stEntered.aws_exe stEntered.profile wBadAws)
          (some ("r")), est)) :=
  ⟨(C4_check_s3_raise_iff stEntered wAllGood none).1 rfl,
   (C4_check_s3_raise_iff stEntered wBadAws (some ("r"))).2 (by decide)⟩


/-- Claim C5 failing input: no `--aws-exe` entered and the executable
`aws` found in PATH.  By the misplaced `else` of lines 246-250,
`check_s3` still appends the error
"The AWS CLI executable (\"--aws-exe\") \"None\" was not found. Make sure
that the file is present and is executable." (formatted with the unset
value) and then raises, where the claim — and the accumulate-only check
contract the message duplicates — says nothing is appended when the
availability predicate holds. -/
theorem C5_aws_found_still_appends :
    wAllGood.which ("aws") = true ∧
    stNoAws.aws_exe = none ∧
    s3NewErrors stNoAws.aws_exe stNoAws.profile wAllGood =
      [msgAwsEnteredNotFound none] ∧
    (∃ e, checkS3 wAllGood none stNoAws = .error e) :=
  ⟨rfl, rfl, rfl, ⟨_, rfl⟩⟩

/-- Claim C6: in one compilation (one run of the local-mode or cloud-mode
check flow from a fresh RailRnaErrors state), the body of the S3
capability verification runs at most once, and likewise the Curl
verification: every later S3- or Curl-dependent check is guarded by
membership of the capability label in `checked_programs`, so a capability
verified once is never re-verified and no duplicate error is emitted. -/
theorem C6_capability_checked_once (w : World) (cm : Bool)
    (np : Option Int) (lu : Option String)
    (manifest output_dir intermediate_dir : String) (force : Bool)
    (aws_exe : Option String) (profile region : String) (verbose : Bool) :
    cntL ("AWS CLI")
      (finalState (railRnaLocalChecks w cm np
        (initR manifest output_dir intermediate_dir force aws_exe profile
          region verbose))) ≤ 1 ∧
    cntL ("Curl")
      (finalState (railRnaLocalChecks w cm np
        (initR manifest output_dir intermediate_dir force aws_exe profile
          region verbose))) ≤ 1 ∧
    cntL ("AWS CLI")
      (finalState (railRnaCloudChecks w cm lu
        (initR manifest output_dir intermediate_dir force aws_exe profile
          region verbose))) ≤ 1 ∧
    cntL ("Curl")
      (finalState (railRnaCloudChecks w cm lu
        (initR manifest output_dir intermediate_dir force aws_exe profile
          region verbose))) ≤ 1 := by
  have hcap : ∀ l : String,
      capOK l (initR manifest output_dir intermediate_dir force aws_exe
        profile region verbose) := by
    intro l
    unfold capOK cntL initR
    simp
  have hA : ("AWS CLI") ∉ (initR manifest output_dir intermediate_dir
      force aws_exe profile region verbose).checked_programs := by
    simp [initR]
  exact ⟨MOK_final (MOK_railRnaLocalChecks w cm np _ (hcap _)),
         MOK_final (MOK_railRnaLocalChecks w cm np _ (hcap _)),
         MOK_final (MOK_railRnaCloudChecks w cm lu _ hA (hcap _)),
         MOK_final (MOK_railRnaCloudChecks w cm lu _ hA (hcap _))⟩

/-! ## Temp-directory bookkeeping lemmas (claim C9) -/

theorem andThen_ok {m : CheckM} {f : RState → CheckM} {s : RState}
    (h : andThen m f = .ok s) :
    ∃ st1, m = .ok st1 ∧ f st1 = .ok s := by
  cases m with
  | ok st1 => exact ⟨st1, rfl, h⟩
  | error e => cases h

theorem rem_andThen {m : CheckM} {f : RState → CheckM} {v : List String}
    (hm : (finalState m).removedDirs = v)
    (hf : ∀ st1, (finalState (f st1)).removedDirs = st1.removedDirs) :
    (finalState (andThen m f)).removedDirs = v := by
  cases m with
  | ok st1 => exact (hf st1).trans hm
  | error e => exact hm

theorem rem_checkS3 {w : World} {reason : Option String} {st : RState} :
    (finalState (checkS3 w reason st)).removedDirs = st.removedDirs := by
  simp only [checkS3]
  split <;> rfl

theorem checkProgram_proj {w : World} {exe pname param : String}
    {entered reason : Option String} {st : RState} :
    (∀ x, checkProgram w exe pname param entered reason st = .ok x →
      x.1.removedDirs = st.removedDirs ∧ x.1.tempDirs = st.tempDirs) ∧
    (∀ e, checkProgram w exe pname param entered reason st = .error e →
      e.2.removedDirs = st.removedDirs ∧ e.2.tempDirs = st.tempDirs) := by
  constructor <;> intro z hz <;>
    rcases reason with _ | r <;> rcases entered with _ | en <;>
    simp only [checkProgram] at hz <;> (repeat' split at hz) <;>
    cases hz <;> exact ⟨rfl, rfl⟩

theorem rem_runCurlCheck {w : World} {reason : Option String}
    {st : RState} :
    (finalState (runCurlCheck w reason st)).removedDirs =
      st.removedDirs := by
  unfold runCurlCheck
  cases hcp : checkProgram w ("curl") ("Curl") ("--curl_exe") st.curl_exe
      reason st with
  | ok x => exact (checkProgram_proj.1 x hcp).1
  | error e => exact (checkProgram_proj.2 e hcp).1

theorem rem_checkFilesLocal {w : World} {m0 : String}
    (files : List String) :
    ∀ st : RState,
      (finalState (checkFilesLocal w m0 files st)).removedDirs =
        st.removedDirs := by
  induction files with
  | nil => intro st; rfl
  | cons f fs ih =>
    intro st
    unfold checkFilesLocal
    apply rem_andThen
    · split
      · exact rem_checkS3
      · split
        · exact rem_runCurlCheck
        · rfl
    · intro st1
      refine (ih _).trans ?_
      split <;> rfl

theorem rem_localParse {w : World} {cm : Bool} {m0 : String}
    {st : RState} :
    (finalState (localParse w cm m0 st)).removedDirs = st.removedDirs := by
  obtain ⟨ex, hex⟩ := parseManifest_state m0 w.manifestTokens st
  unfold localParse
  split
  · split
    · exact (rem_checkFilesLocal _ _).trans (by rw [hex])
    · show (parseManifest m0 w.manifestTokens st).2.removedDirs = _
      rw [hex]
  · show (appendErr _ (parseManifest m0 w.manifestTokens st).2).removedDirs
        = _
    rw [hex]; rfl

theorem rem_localSegManifest {w : World} {cm : Bool} {st : RState} :
    (finalState (localSegManifest w cm st)).removedDirs =
      st.removedDirs := by
  unfold localSegManifest
  split
  · rfl
  · refine rem_localParse.trans ?_
    unfold localStage
    split <;> rfl

theorem rem_railRnaLocalChecks (w : World) (cm : Bool) (np : Option Int)
    (st : RState) :
    (finalState (railRnaLocalChecks w cm np st)).removedDirs =
      st.removedDirs := by
  unfold railRnaLocalChecks
  apply rem_andThen
  · have hmid : (localSegInter w st).removedDirs = st.removedDirs := by
      unfold localSegInter; split <;> rfl
    have hout : (finalState
        (localSegOut w (localSegInter w st))).removedDirs =
        (localSegInter w st).removedDirs := by
      unfold localSegOut
      split
      · rfl
      · split
        · exact rem_checkS3
        · rfl
    exact hout.trans hmid
  · intro st1
    apply rem_andThen
    · have hmid : (localSegForce w st1).removedDirs = st1.removedDirs := by
        unfold localSegForce; (repeat' split) <;> rfl
      have hcap : (finalState
          (localSegManCap w (localSegForce w st1))).removedDirs =
          (localSegForce w st1).removedDirs := by
        unfold localSegManCap
        split
        · exact rem_checkS3
        · split
          · exact rem_runCurlCheck
          · rfl
      exact hcap.trans hmid
    · intro st2
      apply rem_andThen
      · exact rem_localSegManifest
      · intro st3
        show (numProcSeg w np st3).removedDirs = st3.removedDirs
        rcases np with _ | n
        · simp only [numProcSeg, cpuSeg]
        · simp only [numProcSeg, cpuSeg]
          (repeat' split) <;> rfl

theorem checkS3_ok_tdrd {w : World} {reason : Option String}
    {st s : RState} (h : checkS3 w reason st = .ok s) :
    tdrd s = tdrd st := by
  simp only [checkS3] at h
  split at h
  · cases h; rfl
  · cases h

theorem runCurl_ok_tdrd {w : World} {reason : Option String}
    {st s : RState} (h : runCurlCheck w reason st = .ok s) :
    tdrd s = tdrd st := by
  unfold runCurlCheck at h
  cases hcp : checkProgram w ("curl") ("Curl") ("--curl_exe") st.curl_exe
      reason st with
  | ok x =>
    rw [hcp] at h
    cases h
    obtain ⟨hr, ht⟩ := checkProgram_proj.1 x hcp
    simp [tdrd, hr, ht]
  | error e => rw [hcp] at h; cases h

theorem cloudSegParams_tdrd {w : World} {lu : Option String}
    {st : RState} : tdrd (cloudSegParams w lu st) = tdrd st := by
  rcases lu with _ | u <;> simp only [cloudSegParams] <;>
    (repeat' split) <;> rfl

theorem cloudSegManCap_ok_tdrd {w : World} {st s : RState}
    (h : cloudSegManCap w st = .ok s) : tdrd s = tdrd st := by
  unfold cloudSegManCap at h
  split at h
  · exact runCurl_ok_tdrd h
  · cases h; rfl

theorem checkFilesCloud_ok_tdrd {w : World} {m0 : String}
    (files : List String) :
    ∀ {st s : RState}, checkFilesCloud w m0 files st = .ok s →
      tdrd s = tdrd st := by
  induction files with
  | nil => intro st s h; cases h; rfl
  | cons f fs ih =>
    intro st s h
    unfold checkFilesCloud at h
    obtain ⟨st1, h1, h2⟩ := andThen_ok h
    have e2 : tdrd s = tdrd st1 := by
      refine (ih h2).trans ?_
      split <;> rfl
    refine e2.trans ?_
    split at h1
    · exact runCurl_ok_tdrd h1
    · cases h1; rfl

theorem cloudParse_ok_tdrd {w : World} {cm : Bool} {m0 : String}
    {st s : RState} (h : cloudParse w cm m0 st = .ok s) :
    tdrd s = tdrd st := by
  obtain ⟨ex, hex⟩ := parseManifest_state m0 w.manifestTokens st
  unfold cloudParse at h
  split at h
  · split at h
    · refine (checkFilesCloud_ok_tdrd _ h).trans ?_
      rw [hex]; rfl
    · cases h
      show tdrd (parseManifest m0 w.manifestTokens st).2 = tdrd st
      rw [hex]; rfl
  · cases h
    show tdrd (appendErr _ (parseManifest m0 w.manifestTokens st).2)
        = tdrd st
    unfold appendErr tdrd
    rw [hex]

theorem cloudSegManifest_eq {w : World} {cm : Bool} {st s : RState}
    (h0 : st.removedDirs = st.tempDirs)
    (h : cloudSegManifest w cm st = .ok s) :
    s.removedDirs = s.tempDirs := by
  unfold cloudSegManifest at h
  split at h
  · cases h; exact h0
  · obtain ⟨st1, hA, hB⟩ := andThen_ok h
    cases hB
    have hpp : tdrd st1 = tdrd (cloudStage w st) := cloudParse_ok_tdrd hA
    have ht1 : st1.tempDirs = (cloudStage w st).tempDirs :=
      congrArg Prod.fst hpp
    have hr1 : st1.removedDirs = (cloudStage w st).removedDirs :=
      congrArg Prod.snd hpp
    have hput_t : (cloudPut w st.manifest (cloudStagedName w st.manifest)
        st1).tempDirs = st1.tempDirs := by
      unfold cloudPut; split <;> rfl
    have hput_r : (cloudPut w st.manifest (cloudStagedName w st.manifest)
        st1).removedDirs = st1.removedDirs := by
      unfold cloudPut; split <;> rfl
    unfold cloudRm
    split
    · rename_i hl
      show (cloudPut _ _ _ st1).removedDirs ++ [w.mkdtempName] =
        (cloudPut _ _ _ st1).tempDirs
      rw [hput_t, hput_r, ht1, hr1]
      unfold cloudStage
      rw [if_pos hl]
      show st.removedDirs ++ [w.mkdtempName] =
        st.tempDirs ++ [w.mkdtempName]
      rw [h0]
    · rename_i hl
      show (cloudPut _ _ _ st1).removedDirs = (cloudPut _ _ _ st1).tempDirs
      rw [hput_t, hput_r, ht1, hr1]
      unfold cloudStage
      rw [if_neg hl]
      exact h0

theorem cloud_ok_removed {w : World} {cm : Bool} {lu : Option String}
    {st s : RState} (h0 : st.removedDirs = st.tempDirs)
    (h : railRnaCloudChecks w cm lu st = .ok s) :
    s.removedDirs = s.tempDirs := by
  unfold railRnaCloudChecks at h
  obtain ⟨st1, h1, h2⟩ := andThen_ok h
  obtain ⟨st2, h3, h4⟩ := andThen_ok h2
  have e1 : tdrd st1 = tdrd st := checkS3_ok_tdrd h1
  have e3 : tdrd st2 = tdrd st1 :=
    (cloudSegManCap_ok_tdrd h3).trans cloudSegParams_tdrd
  have h0' : st2.removedDirs = st2.tempDirs := by
    have ha : st2.removedDirs = st.removedDirs := by
      have := (e3.trans e1)
      exact congrArg Prod.snd this
    have hb : st2.tempDirs = st.tempDirs := by
      have := (e3.trans e1)
      exact congrArg Prod.fst this
    rw [ha, hb, h0]
  exact cloudSegManifest_eq h0' h4

/-- Claim C9 counterexample: in local mode with a remote (curlable,
existing) manifest, validation creates one temporary staging directory
and removes nothing — nothing in RailRnaLocal.__init__ calls
`shutil.rmtree` (the downloaded copy, pointed to by `base.manifest`, is
used by the subsequent job flow). -/
theorem C9_counterexample :
    ∃ st, railRnaLocalChecks wC9 false (some 1) stC9 = .ok st ∧
      st.tempDirs = ["td"] ∧ st.removedDirs = [] := by
  refine ⟨_, rfl, ?_, ?_⟩ <;> rfl

/-- Claim C9 (amended): the local-mode check never removes the staging
directory of a remotely-fetched manifest (removal never happens in the
local flow, on any path), while the cloud-mode check removes exactly the
temporary directories it created on every run that completes without a
hard dependency error. -/
theorem C9_amended_tempdir_cleanup :
    (∀ (w : World) (cm : Bool) (np : Option Int) (st : RState),
      (finalState (railRnaLocalChecks w cm np st)).removedDirs =
        st.removedDirs) ∧
    (∀ (w : World) (cm : Bool) (lu : Option String) (st s : RState),
      st.removedDirs = st.tempDirs →
      railRnaCloudChecks w cm lu st = .ok s →
      s.removedDirs = s.tempDirs) :=
  ⟨fun w cm np st => rem_railRnaLocalChecks w cm np st,
   fun _ _ _ _ _ h0 h => cloud_ok_removed h0 h⟩

theorem join2_empty (b : String) : join2 ("") b = b := by
  unfold join2
  split
  · rfl
  · rw [if_pos rfl]

/-- Claim C8 counterexample: assembling the local preprocess+align flow
with manifest `/m`, intermediate directory `i` and any external output
directory (`out`, say) gives a last step whose `-output` is `i/bam` — a
subdirectory of the intermediate directory, not the external output
directory.  Indeed `railRnaLocalAllSteps` does not even take the external
output directory as an input: it appears in no step input/output. -/
theorem C8_counterexample :
    (((railRnaLocalAllSteps ("/m") ("i") ("sd") 1 ("py")).toOption.bind
        List.getLast?).bind
      (fun s => argAfter ("-output") s.args)) = some ("i/bam") ∧
    ("i/bam" : String) ≠ ("out") := by
  constructor
  · decide
  · decide

/-- Claim C8 (amended): RailRnaLocalAllJson chains the two phases through
the phase-transition directory `middle_dir = intermediate/preprocess/push`
— the preprocess step writes its output there verbatim and the first
align step reads it verbatim, and the preprocess step's input is the
manifest (resolved against the intermediate root; the manifest path
itself when absolute) — but the last align step's declared output is the
`bam` subdirectory of the intermediate directory; the true external
output directory is referenced only inside command strings, never as a
step output. -/
theorem C8_amended_phase_chaining (manifest inter sd sx : String)
    (np : Int) :
    railRnaLocalAllSteps manifest inter sd np sx =
      .ok ((localAllProtosteps manifest inter).map
        (fun p => buildStep (stepParamsOf (localAllCtx inter sd np sx) p)))
      ∧
    Option.map StepParams.output
      (((localAllProtosteps manifest inter).map
        (stepParamsOf (localAllCtx inter sd np sx))).get? 0) =
      some (localAllMiddle inter) ∧
    Option.map StepParams.inputs
      (((localAllProtosteps manifest inter).map
        (stepParamsOf (localAllCtx inter sd np sx))).get? 1) =
      some [localAllMiddle inter] ∧
    Option.map StepParams.output
      (((localAllProtosteps manifest inter).map
        (stepParamsOf (localAllCtx inter sd np sx))).getLast?) =
      some (pathJoin false [inter, "bam"]) ∧
    (isAbs manifest = true →
      Option.map StepParams.inputs
        (((localAllProtosteps manifest inter).map
          (stepParamsOf (localAllCtx inter sd np sx))).get? 0) =
        some [manifest]) := by
  refine ⟨?_, rfl, rfl, ?_, ?_⟩
  · have h1 : ∀ p ∈ preprocessProtosteps manifest (localAllMiddle inter),
        wfPairB p = true := by
      intro p hp
      fin_cases hp
      rfl
    have h2 : ∀ p ∈ alignProtosteps (localAllMiddle inter) false,
        wfPairB p = true := by
      intro p hp
      fin_cases hp <;> rfl
    calc railRnaLocalAllSteps manifest inter sd np sx
        = (stepsE (localAllCtx inter sd np sx)
            (preprocessProtosteps manifest (localAllMiddle inter))).bind
            (fun pre => (stepsE (localAllCtx inter sd np sx)
              (alignProtosteps (localAllMiddle inter) false)).map
              (fun post => pre ++ post)) := rfl
      _ = .ok ((localAllProtosteps manifest inter).map
            (fun p => buildStep
              (stepParamsOf (localAllCtx inter sd np sx) p))) := by
          rw [stepsE_eq_map _ _ h1, stepsE_eq_map _ _ h2]
          simp [localAllProtosteps, Except.map, Except.bind]
  · rfl
  · intro h
    have hj : pathJoin false [inter, manifest] = manifest := by
      show join2 (join2 ("") inter) manifest = manifest
      rw [join2_empty]
      unfold join2
      rw [if_pos h]
    show some [pathJoin false [inter, manifest]] = some [manifest]
    rw [hj]

theorem C8_amended_phase_chaining_witness :
    railRnaLocalAllSteps ("/m") ("i") ("sd") 1 ("py") =
      .ok ((localAllProtosteps ("/m") ("i")).map
        (fun p => buildStep (stepParamsOf (localAllCtx ("i") ("sd") 1
          ("py")) p))) ∧
    Option.map StepParams.inputs
      (((localAllProtosteps ("/m") ("i")).map
        (stepParamsOf (localAllCtx ("i") ("sd") 1 ("py")))).get? 0) =
      some ["/m"] := by
  refine ⟨(C8_amended_phase_chaining ("/m") ("i") ("sd") ("py") 1).1, ?_⟩
  exact (C8_amended_phase_chaining ("/m") ("i") ("sd") ("py") 1).2.2.2.2
    (by decide)

theorem C9_amended_tempdir_cleanup_witness :
    (finalState (railRnaLocalChecks wC9 false (some 1) stC9)).removedDirs
      = stC9.removedDirs ∧
    (∃ s, railRnaCloudChecks wC9c false none stC9c = .ok s ∧
      s.removedDirs = s.tempDirs ∧ s.tempDirs = ["td"]) := by
  constructor
  · exact C9_amended_tempdir_cleanup.1 wC9 false (some 1) stC9
  · obtain ⟨s, hs⟩ : ∃ s, railRnaCloudChecks wC9c false none stC9c =
        .ok s := ⟨_, rfl⟩
    exact ⟨s, hs,
      C9_amended_tempdir_cleanup.2 wC9c false none stC9c s rfl hs,
      by rw [show s = (finalState (railRnaCloudChecks wC9c false none
        stC9c)) from by rw [hs]; rfl]; rfl⟩

end RailRna
